import Mathlib

/-!
Verification of the MergeMate file-merging pipeline.

Shallow embedding of the repository's four Python modules:
`file_merger.py`, `src/app.py`, `src/file_utils.py`, `src/zip_utils.py`.

Filesystem and library effects (reading bytes, chardet, zipfile
extraction, os.walk) are abstracted into explicit outcome values; the
pure computations of the code (header assembly, separator placement,
extension filtering, sorting, statistics, fallback chains) are embedded
directly from the source.
-/

namespace MergeMate

/-- Split a character list at every occurrence of a character, keeping
empty segments, like Python's `str.split` with an explicit separator. -/
def splitOnChar (c : Char) : List Char → List (List Char)
  | [] => [[]]
  | x :: xs =>
    match splitOnChar c xs with
    | [] => [[]]
    | h :: t => if x = c then [] :: h :: t else (x :: h) :: t

/-- Embedding of Python's `os.path.basename` for POSIX paths: the
substring after the final slash. -/
def os_path_basename (p : String) : String :=
  String.mk ((splitOnChar '/' p.data).getLastD [])

/-- Embedding of `pathlib.Path(p).name`: the final path component after
pathlib's normalisation, which drops empty components and single-dot
components. -/
def pathlibName (p : String) : String :=
  String.mk (((splitOnChar '/' p.data).filter
    (fun s => !(s == ([] : List Char) || s == ['.']))).getLastD [])

/-- Python's `str.lower` as used on extensions (character-wise ASCII
lowercasing). -/
def lowerStr (s : String) : String :=
  String.mk (s.data.map Char.toLower)

/-- Index of the last occurrence of a character in a character list
(Python's `str.rfind`), or `none` when absent. -/
def lastDotIdx (cs : List Char) : Option Nat :=
  (cs.reverse.findIdx? (fun c => c == '.')).map (fun j => cs.length - 1 - j)

/-- Embedding of `pathlib.Path(p).suffix`: the extension of the final
component from its last dot (dot included); empty when the component has
no dot, or the dot is its first or last character. -/
def pathlibSuffix (p : String) : String :=
  let name := pathlibName p
  let cs := name.data
  match lastDotIdx cs with
  | some i => if 0 < i ∧ i < cs.length - 1 then String.mk (cs.drop i) else ""
  | none => ""

/-- The `SUPPORTED_EXTENSIONS` set of `src/file_utils.py`, transcribed in
source order. -/
def SUPPORTED_EXTENSIONS : List String :=
  [".txt", ".xml", ".java", ".py", ".js", ".html", ".css", ".json",
   ".md", ".yml", ".yaml", ".ini", ".cfg", ".conf", ".log", ".sql",
   ".c", ".cpp", ".h", ".hpp", ".cs", ".php", ".rb", ".go", ".rs",
   ".sh", ".bat", ".ps1", ".r", ".scala", ".kt", ".swift", ".dart",
   ".tsx", ".jsx", ".vue", ".svelte", ".ts", ".coffee", ".less",
   ".scss", ".sass", ".styl", ".pug", ".ejs", ".hbs", ".mustache"]

/-- The local `text_extensions` set of `file_merger.py`'s own
`is_text_file`, transcribed in source order. -/
def text_extensions : List String :=
  [".txt", ".xml", ".java", ".py", ".js", ".html", ".css", ".json",
   ".md", ".yml", ".yaml", ".ini", ".cfg", ".conf", ".log", ".sql",
   ".c", ".cpp", ".h", ".hpp", ".cs", ".php", ".rb", ".go", ".rs",
   ".sh", ".bat", ".ps1", ".r", ".scala", ".kt", ".swift", ".dart",
   ".tsx", ".jsx", ".vue", ".svelte", ".ts", ".coffee", ".less",
   ".scss", ".sass", ".styl", ".pug", ".ejs", ".hbs", ".mustache"]

/-- The allow-list exactly as enumerated in the specification's external
interfaces section, for comparison with the code's set. -/
def spec_allowed_extensions : List String :=
  [".txt", ".xml", ".java", ".py", ".js", ".html", ".css", ".json",
   ".md", ".yml", ".yaml", ".ini", ".cfg", ".conf", ".log", ".sql",
   ".c", ".cpp", ".h", ".hpp", ".cs", ".php", ".rb", ".go", ".rs",
   ".sh", ".bat", ".ps1", ".r", ".scala", ".kt", ".swift", ".dart",
   ".tsx", ".jsx", ".vue", ".svelte", ".ts", ".coffee", ".less",
   ".scss", ".sass", ".styl", ".pug", ".ejs", ".hbs", ".mustache"]

/-- Embedding of `is_text_file` from `src/file_utils.py`:
`Path(file_path).suffix.lower() in SUPPORTED_EXTENSIONS`. -/
def is_text_file (p : String) : Bool :=
  SUPPORTED_EXTENSIONS.contains (lowerStr (pathlibSuffix p))

/-- Embedding of the duplicated `is_text_file` in `file_merger.py`,
which tests its local `text_extensions` set. -/
def is_text_file_merger (p : String) : Bool :=
  text_extensions.contains (lowerStr (pathlibSuffix p))

/-- Outcome of the effectful part of `detect_encoding`: either the open
and `chardet.detect` call completed and produced the dictionary's
`encoding` field (`None` modelled as `none`), or some exception was
raised while reading. -/
inductive DetectOutcome where
  | read (encoding : Option String)
  | readError

/-- Embedding of `detect_encoding` (identical in `file_merger.py` and
`src/file_utils.py`): return the detected name when it is truthy, and
the default otherwise; any read exception is swallowed and also yields
the default.  Python truthiness of a string is non-emptiness, so an
empty detected name also falls back. -/
def detect_encoding : DetectOutcome → String
  | .read (some e) => if e = "" then "utf-8" else e
  | .read none => "utf-8"
  | .readError => "utf-8"

/-- Outcome of the effectful part of `read_file_content`: the first open
with the detected encoding either succeeds with decoded text, raises
`UnicodeDecodeError` (after which the retry with `utf-8`/`errors=ignore`
either yields text or itself fails), or raises some other exception with
a message. -/
inductive ReadOutcome where
  | success (content : String)
  | decodeError (retry : Option String)
  | otherError (msg : String)

/-- Embedding of `read_file_content` (identical in `file_merger.py` and
`src/file_utils.py`): decoded content with `true` on success or on a
successful fallback retry, and one of the two bracketed error sentinels
with `false` otherwise. -/
def read_file_content (path : String) : ReadOutcome → String × Bool
  | .success c => (c, true)
  | .decodeError (some c) => (c, true)
  | .decodeError none => ("[Error: Could not read file " ++ path ++ "]", false)
  | .otherError msg => ("[Error reading " ++ path ++ ": " ++ msg ++ "]", false)

/-- The text the decoding chain of `read_file_content` can deliver for a
given outcome: the decoded content when the first attempt or the
fallback retry succeeds, and nothing otherwise. -/
def decodedContent : ReadOutcome → Option String
  | .success c => some c
  | .decodeError r => r
  | .otherError _ => none

/-- The default separator of `merge_files`:
a line break, eighty equals signs, a line break. -/
def default_separator : String :=
  "\n" ++ String.mk (List.replicate 80 '=') ++ "\n"

/-- The per-file header built by `merge_files`: a line break, the
basename, a colon and line break, then `len(basename) + 1` dashes and a
line break. -/
def fileHeader (p : String) : String :=
  let filename := os_path_basename p
  "\n" ++ filename ++ ":\n" ++ String.mk (List.replicate (filename.length + 1) '-') ++ "\n"

/-- The `merged_content` list built by the loop of `merge_files`
(identical in `file_merger.py` and `src/app.py`): per path its header,
then the content returned by the reader, then — when the path is not
equal to the list's last element (`file_path != file_paths[-1]`) — the
separator.  The reader is a parameter abstracting `read_file_content`'s
filesystem access. -/
def mergedPieces (readf : String → String × Bool) (paths : List String)
    (sep : String) : List String :=
  paths.flatMap (fun p =>
    [fileHeader p, (readf p).1] ++ (if p = paths.getLastD "" then [] else [sep]))

/-- Embedding of `merge_files`: the concatenation of the pieces list
(`"".join(merged_content)`). -/
def merge_files (readf : String → String × Bool) (paths : List String)
    (sep : String) : String :=
  String.join (mergedPieces readf paths sep)

/-- Embedding of the statistics display (`render_statistics` in
`src/app.py` and the metrics block of `main` in `file_merger.py`):
files merged, total characters (`len`), total lines
(`count(chr(10)) + 1`). -/
def render_statistics (merged : String) (filePaths : List String) : Nat × Nat × Nat :=
  (filePaths.length, merged.length, merged.data.count '\n' + 1)

/-- Outcome of the effectful part of `extract_zip_files`: either the
`extractall` plus `os.walk` phase completed, listing the regular files
found under the scratch directory in walk order, or some step raised an
exception with a message. -/
inductive ZipOutcome where
  | extracted (files : List String)
  | failed (msg : String)

/-- Python's `sorted` on a list of strings: lexicographic ascending by
code point. -/
def pysorted (l : List String) : List String :=
  List.insertionSort (· ≤ ·) l

/-- Embedding of `extract_zip_files` from `file_merger.py`: on success
the walked regular files that pass its local filter, sorted; on any
exception it reports via `st.error` and returns the empty list. -/
def extract_zip_files_merger : ZipOutcome → List String
  | .extracted files => pysorted (files.filter (fun p => is_text_file_merger p))
  | .failed _ => []

/-- Embedding of `extract_zip_files` from `src/zip_utils.py`: on success
the walked regular files that pass the filter, sorted; on any exception
it raises `Exception("Error extracting zip file: ...")`, modelled as an
`Except.error`. -/
def extract_zip_files_utils : ZipOutcome → Except String (List String)
  | .extracted files => .ok (pysorted (files.filter (fun p => is_text_file p)))
  | .failed m => .error ("Error extracting zip file: " ++ m)

/-- The behaviour of `file_merger.py`'s `extract_zip_files` as an
`Except` value: it catches every exception and returns a list, so it
always terminates normally with `Except.ok`. -/
def merger_behaviour (o : ZipOutcome) : Except String (List String) :=
  Except.ok (extract_zip_files_merger o)

/-- Reader for the specification's two-file example: `foo.txt` holds
`"hi"`, `bar.txt` holds `"bye"`, both reads succeed. -/
def readC2 (p : String) : String × Bool :=
  if p = "foo.txt" then ("hi", true)
  else if p = "bar.txt" then ("bye", true)
  else ("[Error: Could not read file " ++ p ++ "]", false)

end MergeMate

namespace MergeMate

/-- Claim C1 (failing input): merging the three paths
`["a.txt", "b.txt", "a.txt"]` appends the separator only once, not the
`N - 1 = 2` times the separator-placement invariant demands; the loop's
`file_path != file_paths[-1]` test drops the separator after the first
file because it equals the last path, although it is not the last file,
contradicting the code's own comment `except for the last file`.  The
resulting merged text carries no separator between the first and second
files. -/
theorem c1_separator_insertion_bug :
    (mergedPieces (fun _ => ("x", true)) ["a.txt", "b.txt", "a.txt"] "<SEP>").count "<SEP>" = 1 ∧
    (["a.txt", "b.txt", "a.txt"] : List String).length - 1 = 2 ∧
    merge_files (fun _ => ("x", true)) ["a.txt", "b.txt", "a.txt"] "<SEP>" =
      "\na.txt:\n------\nx\nb.txt:\n------\nx<SEP>\na.txt:\n------\nx" := by
  refine ⟨by decide, by decide, by decide⟩

/-- Claim C2 (counterexample): the merged output of `foo.txt` and
`bar.txt` is not the string the claim spells out — that string carries
two line breaks between the content `hi` and the run of equals signs,
while the code emits only the separator's own leading line break. -/
theorem c2_spec_string_mismatch :
    merge_files readC2 ["foo.txt", "bar.txt"] default_separator ≠
      "\nfoo.txt:\n--------\nhi\n" ++ "\n" ++ String.mk (List.replicate 80 '=') ++ "\n" ++
        "\nbar.txt:\n--------\nbye" := by
  decide

/-- Claim C2 (amended): merging `foo.txt` (content `hi`) and `bar.txt`
(content `bye`) with the default separator yields exactly the header of
`foo.txt`, `hi`, the separator (line break, eighty equals signs, line
break), the header of `bar.txt`, and `bye` — with a single line break
between `hi` and the equals run. -/
theorem c2_merge_output :
    merge_files readC2 ["foo.txt", "bar.txt"] default_separator =
      "\nfoo.txt:\n--------\nhi" ++ "\n" ++ String.mk (List.replicate 80 '=') ++ "\n" ++
        "\nbar.txt:\n--------\nbye" := by
  decide

/-- Claim C3 (counterexample): the two copies of `extract_zip_files` do
not behave alike on a failing archive — `file_merger.py`'s copy catches
the exception and returns the empty list, while `src/zip_utils.py`'s
copy raises. -/
theorem c3_failure_behaviour_differs :
    merger_behaviour (.failed "bad zip") ≠ extract_zip_files_utils (.failed "bad zip") :=
  fun h => Except.noConfusion h

/-- Claim C3 (amended): on every successful extraction the two copies of
`extract_zip_files` return the same sorted filtered list; on failure
they diverge in a fixed way — `file_merger.py`'s copy returns the empty
list while `src/zip_utils.py`'s copy raises a single wrapped
exception. -/
theorem c3_equivalence_on_success :
    (∀ files : List String,
        merger_behaviour (.extracted files) = extract_zip_files_utils (.extracted files)) ∧
    (∀ m : String,
        merger_behaviour (.failed m) = Except.ok [] ∧
        extract_zip_files_utils (.failed m) =
          Except.error ("Error extracting zip file: " ++ m)) :=
  ⟨fun _ => rfl, fun _ => ⟨rfl, rfl⟩⟩

/-- Claim C4: for every walked file list, the Archive Expander of
`src/zip_utils.py` succeeds with exactly the eligible regular files —
a permutation of the filtered input — sorted ascending, and the result
is invariant under permuting the walked list. -/
theorem c4_extract_sorted_filter (files files' : List String)
    (h : files.Perm files') :
    extract_zip_files_utils (.extracted files) =
      extract_zip_files_utils (.extracted files') ∧
    ∃ l, extract_zip_files_utils (.extracted files) = Except.ok l ∧
      l.Sorted (· ≤ ·) ∧ l.Perm (files.filter (fun p => is_text_file p)) := by
  constructor
  · have h1 : (pysorted (files.filter (fun p => is_text_file p))).Perm
        (pysorted (files'.filter (fun p => is_text_file p))) := by
      unfold pysorted
      exact (List.perm_insertionSort _ _).trans
        ((h.filter _).trans (List.perm_insertionSort _ _).symm)
    have hperm : pysorted (files.filter (fun p => is_text_file p)) =
        pysorted (files'.filter (fun p => is_text_file p)) := by
      unfold pysorted at h1 ⊢
      exact List.eq_of_perm_of_sorted h1
        (List.sorted_insertionSort _ _) (List.sorted_insertionSort _ _)
    simpa [extract_zip_files_utils] using
      congrArg (Except.ok (ε := String)) hperm
  · exact ⟨pysorted (files.filter (fun p => is_text_file p)), rfl,
      List.sorted_insertionSort _ _, List.perm_insertionSort _ _⟩

/-- Claim C4 (witness): the archive holding `b.py`, `a.txt`, `c.md`
expands to the same sorted list whatever the walk order, namely
`[a.txt, b.py, c.md]`. -/
theorem c4_extract_sorted_filter_witness :
    extract_zip_files_utils (.extracted ["b.py", "a.txt", "c.md"]) =
      extract_zip_files_utils (.extracted ["c.md", "a.txt", "b.py"]) :=
  (c4_extract_sorted_filter ["b.py", "a.txt", "c.md"] ["c.md", "a.txt", "b.py"]
    (by decide)).1

/-- Claim C5: the File Reader is total over read outcomes and its result
is characterised by the decoding chain — when the first decode or the
fallback retry delivers text, that text is returned with `ok = true`;
when the retry fails or any other error occurs, one of the two bracketed
sentinel strings is returned with `ok = false`. -/
theorem c5_read_file_content_spec (path : String) (o : ReadOutcome) :
    ((read_file_content path o).2 = true ∧
      decodedContent o = some (read_file_content path o).1) ∨
    ((read_file_content path o).2 = false ∧ decodedContent o = none ∧
      ((read_file_content path o).1 = "[Error: Could not read file " ++ path ++ "]" ∨
       ∃ m, o = .otherError m ∧
         (read_file_content path o).1 = "[Error reading " ++ path ++ ": " ++ m ++ "]")) := by
  cases o with
  | success c => exact Or.inl ⟨rfl, rfl⟩
  | decodeError r =>
    cases r with
    | some c => exact Or.inl ⟨rfl, rfl⟩
    | none => exact Or.inr ⟨rfl, rfl, Or.inl rfl⟩
  | otherError m => exact Or.inr ⟨rfl, rfl, Or.inr ⟨m, rfl, rfl⟩⟩

/-- Claim C6: the statistics report the merged text's character count
and its line-break count plus one, so the empty text and any text with
no line breaks report one line, and a text with exactly three line
breaks reports four. -/
theorem c6_statistics_spec (merged : String) (filePaths : List String) :
    (render_statistics merged filePaths).2.1 = merged.length ∧
    (render_statistics merged filePaths).2.2 = merged.data.count '\n' + 1 ∧
    (merged = "" → (render_statistics merged filePaths).2.2 = 1) ∧
    (merged.data.count '\n' = 0 → (render_statistics merged filePaths).2.2 = 1) ∧
    (merged.data.count '\n' = 3 → (render_statistics merged filePaths).2.2 = 4) := by
  refine ⟨rfl, rfl, ?_, ?_, ?_⟩
  · intro h; subst h; rfl
  · intro h; show merged.data.count '\n' + 1 = 1; rw [h]
  · intro h; show merged.data.count '\n' + 1 = 4; rw [h]

/-- Claim C6 (witness): the empty text reports one line, a three-line
text without final break reports three characters of break and hence
the quirk values. -/
theorem c6_statistics_witness :
    (render_statistics "" []).2.2 = 1 ∧
    (render_statistics "abc" []).2.2 = 1 ∧
    (render_statistics "a\nb\nc\nd" []).2.2 = 4 :=
  ⟨(c6_statistics_spec "" []).2.2.1 rfl,
   (c6_statistics_spec "abc" []).2.2.2.1 (by decide),
   (c6_statistics_spec "a\nb\nc\nd" []).2.2.2.2 (by decide)⟩

/-- Claim C7: the Type Filter accepts a path exactly when its pathlib
suffix, lowercased, belongs to the allow-list the specification
enumerates; a `.exe` file and an extensionless file are rejected. -/
theorem c7_is_text_file_allowlist :
    (∀ p : String,
      is_text_file p = true ↔ lowerStr (pathlibSuffix p) ∈ spec_allowed_extensions) ∧
    is_text_file "malware.exe" = false ∧
    is_text_file "README" = false := by
  refine ⟨fun p => ?_, by decide, by decide⟩
  show List.elem (lowerStr (pathlibSuffix p)) SUPPORTED_EXTENSIONS = true ↔ _
  exact List.elem_iff

/-- Claim C8: on every extraction failure, `src/zip_utils.py`'s Archive
Expander surfaces a single aggregate error carrying the wrapped message
and never yields any file list, partial or otherwise. -/
theorem c8_extraction_failure_closed :
    (∀ m : String, extract_zip_files_utils (.failed m) =
      Except.error ("Error extracting zip file: " ++ m)) ∧
    (∀ (m : String) (l : List String),
      extract_zip_files_utils (.failed m) ≠ Except.ok l) :=
  ⟨fun _ => rfl, fun _ _ h => Except.noConfusion h⟩

/-- Claim C9: the Encoding Detector always returns a non-empty encoding
name; when chardet reports no encoding or the read itself fails it
returns the universal default, and a truthy detected name is returned
as-is. -/
theorem c9_detect_encoding_spec :
    (∀ o : DetectOutcome, detect_encoding o ≠ "") ∧
    detect_encoding (.read none) = "utf-8" ∧
    detect_encoding .readError = "utf-8" ∧
    (∀ e : String, e ≠ "" → detect_encoding (.read (some e)) = e) := by
  refine ⟨?_, rfl, rfl, ?_⟩
  · intro o
    cases o with
    | read enc =>
      cases enc with
      | some e =>
        by_cases he : e = "" <;> simp [detect_encoding, he]
      | none => simp [detect_encoding]
    | readError => simp [detect_encoding]
  · intro e he
    simp [detect_encoding, he]

/-- Claim C9 (witness): a detected name such as `ascii` is passed
through unchanged. -/
theorem c9_detect_encoding_witness :
    detect_encoding (.read (some "ascii")) = "ascii" :=
  c9_detect_encoding_spec.2.2.2 "ascii" (by decide)

/-- Claim C10: merging an empty path list yields the empty string for
every reader and every separator. -/
theorem c10_merge_files_empty (readf : String → String × Bool) (sep : String) :
    merge_files readf [] sep = "" :=
  rfl

end MergeMate
